import Mathlib

/-!
Verification of the node backend framework's core layers: the pooled
storage access layer (src/db/connection.ts, src/db/transaction.helper.ts),
the authentication and authorization gate (src/middleware/auth.middleware.ts),
the validation gate (src/middleware/validation.middleware.ts), and the
global error classifier (src/errors/error.handler.ts).  Each TypeScript
function is embedded as an executable Lean definition; the theorems below
settle the specified properties against those definitions.
-/

namespace NodeFW

/-- Modelled from the spec: the error-kind enumeration of
src/errors/error.types.ts is not present in the source tree; its variants
are exactly the ones referenced by AppError (src/errors/AppError.ts) and by
the global error handler, and the numeric status codes attached below
follow the kind-to-status table of the specification. -/
inductive ErrorType where
  | validationError
  | badRequestError
  | authenticationError
  | authorizationError
  | notFoundError
  | duplicateError
  | databaseError
  | internalServerError
deriving DecidableEq

/-- Embedding of the AppError class (src/errors/AppError.ts): message,
error type, HTTP status code, operational flag, and the optional context
payload.  The only structured context the verified layers attach is the
list of validation messages, so context is modelled as an optional list of
strings. -/
structure AppError where
  message : String
  etype : ErrorType
  statusCode : Nat
  isOperational : Bool
  context : Option (List String)
deriving DecidableEq

/-- AppError.badRequest: bad-request error, status 400. -/
def AppError.badRequest (m : String) (c : Option (List String)) : AppError :=
  ⟨m, ErrorType.badRequestError, 400, true, c⟩

/-- AppError.unauthorized: authentication error, status 401. -/
def AppError.unauthorized (m : String) (c : Option (List String)) : AppError :=
  ⟨m, ErrorType.authenticationError, 401, true, c⟩

/-- AppError.forbidden: authorization error, status 403. -/
def AppError.forbidden (m : String) (c : Option (List String)) : AppError :=
  ⟨m, ErrorType.authorizationError, 403, true, c⟩

/-- AppError.notFound: not-found error, status 404. -/
def AppError.notFound (m : String) (c : Option (List String)) : AppError :=
  ⟨m, ErrorType.notFoundError, 404, true, c⟩

/-- AppError.conflict: duplicate error, status 409. -/
def AppError.conflict (m : String) (c : Option (List String)) : AppError :=
  ⟨m, ErrorType.duplicateError, 409, true, c⟩

/-- AppError.validation: validation error, status 422. -/
def AppError.validation (m : String) (c : Option (List String)) : AppError :=
  ⟨m, ErrorType.validationError, 422, true, c⟩

/-- AppError.database: database error, status 500. -/
def AppError.database (m : String) (c : Option (List String)) : AppError :=
  ⟨m, ErrorType.databaseError, 500, true, c⟩

/-- AppError.internal: internal server error, status 500, non-operational. -/
def AppError.internal (m : String) (c : Option (List String)) : AppError :=
  ⟨m, ErrorType.internalServerError, 500, false, c⟩

/-! ## Authentication and authorization gate (src/middleware/auth.middleware.ts) -/

/-- The claim set decoded from a verified JWT.  Fields that JavaScript may
leave undefined are optional; an empty string models a falsy-but-present
value, matching the way the middleware applies the JavaScript or-operator. -/
structure Claims where
  id : Option String
  userId : Option String
  email : Option String
  role : Option String
deriving DecidableEq

/-- The identity attached to the request (req.user) by the middleware. -/
structure Identity where
  id : Option String
  email : Option String
  role : Option String
deriving DecidableEq

/-- JavaScript or-operator on optional strings: the left operand wins
unless it is absent or the empty string (both falsy). -/
def jsOr (a b : Option String) : Option String :=
  match a with
  | some s => if s = "" then b else some s
  | none => b

/-- Outcome of jwt.verify on a token: decoded claims, a TokenExpiredError,
any other JsonWebTokenError (bad signature, malformed payload), or an
exception of any other class. -/
inductive VerifyOutcome where
  | ok (c : Claims)
  | expired
  | invalid
  | other
deriving DecidableEq

/-- Whether the first list is an initial segment of the second, the check
performed by authHeader.startsWith in the middleware. -/
def startsWithChars : List Char → List Char → Bool
  | [], _ => true
  | _ :: _, [] => false
  | a :: as, b :: bs => a = b && startsWithChars as bs

/-- JavaScript String.prototype.startsWith over the character data of the
two strings. -/
def strStartsWith (pre s : String) : Bool :=
  startsWithChars pre.data s.data

/-- The seven characters of the bearer scheme tag stripped by
authHeader.substring(7), as a character list. -/
def bearerTag : List Char := ['B', 'e', 'a', 'r', 'e', 'r', ' ']

/-- Embedding of the authenticate middleware: reject when the
Authorization header is absent or does not carry the bearer scheme, strip
the scheme tag, verify the token, and translate each verification outcome
into the middleware's AppError, attaching the decoded identity on
success.  The verifier stands for jwt.verify under the configured
secret. -/
def authenticate (verify : List Char → VerifyOutcome)
    (authHeader : Option (List Char)) : Except AppError Identity :=
  match authHeader with
  | none => Except.error (AppError.unauthorized "Access token is required" none)
  | some h =>
    if startsWithChars bearerTag h then
      match verify (h.drop 7) with
      | VerifyOutcome.ok c =>
        Except.ok ⟨jsOr c.id c.userId, c.email, c.role⟩
      | VerifyOutcome.expired =>
        Except.error (AppError.unauthorized "Token has expired" none)
      | VerifyOutcome.invalid =>
        Except.error (AppError.unauthorized "Invalid token" none)
      | VerifyOutcome.other =>
        Except.error (AppError.unauthorized "Token verification failed" none)
    else Except.error (AppError.unauthorized "Access token is required" none)

/-- Embedding of the authorize middleware factory: reject when no identity
is attached; reject with a forbidden error when the role list is non-empty
and does not contain the identity's role (an absent role defaulting to the
empty string, as in the JavaScript or-expression); otherwise pass. -/
def authorize (roles : List String) (user : Option Identity) : Except AppError Unit :=
  match user with
  | none => Except.error (AppError.unauthorized "Authentication required" none)
  | some u =>
    if roles.length > 0 && !(roles.contains (u.role.getD "")) then
      Except.error (AppError.forbidden "Insufficient permissions" none)
    else Except.ok ()

/-- Embedding of the standalone verifyToken helper: return the decoded
claims on success and collapse every caught exception into one
unauthorized error with message Invalid token. -/
def verifyToken (v : VerifyOutcome) : Except AppError Claims :=
  match v with
  | VerifyOutcome.ok c => Except.ok c
  | VerifyOutcome.expired => Except.error (AppError.unauthorized "Invalid token" none)
  | VerifyOutcome.invalid => Except.error (AppError.unauthorized "Invalid token" none)
  | VerifyOutcome.other => Except.error (AppError.unauthorized "Invalid token" none)

/-! ## Validation gate (src/middleware/validation.middleware.ts) -/

/-- One declared validation rule for one input source: a decidable check
and the message reported when the check fails.  A Joi object schema is a
finite collection of such rules. -/
structure Rule (σ : Type) where
  check : σ → Bool
  message : String

/-- Behaviour of schema.validate with abortEarly set to false, as relied
upon by the middleware: every rule is checked, and the error details carry
one message per violated rule, in declaration order. -/
def joiMessages {σ : Type} (rules : List (Rule σ)) (x : σ) : List String :=
  (rules.filter (fun r => !(r.check x))).map (fun r => r.message)

/-- The schema argument of the validate middleware factory: an optional
object schema for each of the three input sources. -/
structure SchemaSet (β π κ : Type) where
  body : Option (List (Rule β))
  params : Option (List (Rule π))
  query : Option (List (Rule κ))

/-- Messages contributed by one optional source schema: none when the
schema is not declared, otherwise the messages of its violated rules. -/
def sourceMessages {σ : Type} (rules : Option (List (Rule σ))) (x : σ) : List String :=
  match rules with
  | none => []
  | some rs => joiMessages rs x

/-- All violation messages the middleware accumulates, in source order:
body first, then params, then query. -/
def violationMessages {β π κ : Type} (s : SchemaSet β π κ) (b : β) (p : π) (q : κ) : List String :=
  sourceMessages s.body b ++ sourceMessages s.params p ++ sourceMessages s.query q

/-- The number of declared rules the input violates, counted across the
three sources, independently of how messages are collected. -/
def violationCount {β π κ : Type} (s : SchemaSet β π κ) (b : β) (p : π) (q : κ) : Nat :=
  (match s.body with | none => 0 | some rs => rs.countP (fun r => !(r.check b))) +
  (match s.params with | none => 0 | some rs => rs.countP (fun r => !(r.check p))) +
  (match s.query with | none => 0 | some rs => rs.countP (fun r => !(r.check q)))

/-- Embedding of the validate middleware: validate body, params and query
in turn, accumulate every violation message, and throw one validation
AppError carrying all of them when any rule is violated; otherwise pass
the request through unchanged. -/
def validate {β π κ : Type} (s : SchemaSet β π κ) (b : β) (p : π) (q : κ) : Except AppError Unit :=
  let errs := violationMessages s b p q
  if errs.length > 0 then
    Except.error (AppError.validation "Validation failed" (some errs))
  else Except.ok ()

/-! ## Error classifier (src/errors/error.handler.ts) -/

/-- A JavaScript error value as the global error handler inspects it: an
AppError payload when the value is an AppError instance, plus the name,
message and optional code properties read by the handler's dispatch
chain. -/
structure JsError where
  app : Option AppError
  name : String
  message : String
  code : Option String
deriving DecidableEq

/-- The wire-level error envelope assembled by the global error handler;
path and method echo the request, stack is attached only in development
builds, and context is carried over from an AppError when present. -/
structure ErrorEnvelope where
  etype : ErrorType
  message : String
  statusCode : Nat
  path : String
  method : String
  stack : Option String
  context : Option (List String)
deriving DecidableEq

/-- The classification triple of an envelope: kind, status code and
message. -/
def classification (r : ErrorEnvelope) : ErrorType × Nat × String :=
  (r.etype, r.statusCode, r.message)

/-- Embedding of globalErrorHandler: dispatch in source order over the
AppError instance check, the four recognized error names, the driver
duplicate-key code, and the general driver code family, falling back to a
generic internal error; redact the driver message only in a production
build; attach the stack only in a development build. -/
def globalErrorHandler (e : JsError) (nodeEnv : String) (stackTrace : String)
    (path method : String) : ErrorEnvelope :=
  let base : ErrorType × Nat × String × Option (List String) :=
    match e.app with
    | some a => (a.etype, a.statusCode, a.message, a.context)
    | none =>
      if e.name = "ValidationError" then
        (ErrorType.validationError, 422,
          (if e.message = "" then "Validation failed" else e.message), none)
      else if e.name = "CastError" then
        (ErrorType.badRequestError, 400, "Invalid resource ID", none)
      else if e.name = "JsonWebTokenError" then
        (ErrorType.authenticationError, 401, "Invalid token", none)
      else if e.name = "TokenExpiredError" then
        (ErrorType.authenticationError, 401, "Token expired", none)
      else if e.code = some "ER_DUP_ENTRY" then
        (ErrorType.duplicateError, 409, "Duplicate entry found", none)
      else
        match e.code with
        | some c =>
          if c ≠ "" && strStartsWith "ER_" c then
            (ErrorType.databaseError, 500,
              (if nodeEnv = "production" then "Database error occurred" else e.message),
              none)
          else (ErrorType.internalServerError, 500, "Something went wrong!", none)
        | none => (ErrorType.internalServerError, 500, "Something went wrong!", none)
  { etype := base.1
    message := base.2.2.1
    statusCode := base.2.1
    path := path
    method := method
    stack := if nodeEnv = "development" then some stackTrace else none
    context := base.2.2.2 }

/-! ## Connection pool and query executor (src/db/connection.ts) -/

/-- The driver pool as the executor observes it: the number of idle
connections currently available for checkout. -/
structure Pool where
  idle : Nat
deriving DecidableEq

/-- Checkout of one connection from the pool (pool.getConnection). -/
def Pool.checkout (p : Pool) : Pool := ⟨p.idle - 1⟩

/-- Checkin of one connection to the pool (connection.release). -/
def Pool.checkin (p : Pool) : Pool := ⟨p.idle + 1⟩

/-- The DatabaseConnection singleton's state: the driver pool when one has
been created and not yet closed. -/
structure DbConn where
  pool : Option Pool
deriving DecidableEq

/-- The idle count visible through the singleton; zero when no pool
exists. -/
def DbConn.poolIdle (s : DbConn) : Nat :=
  match s.pool with
  | none => 0
  | some p => p.idle

/-- Embedding of DatabaseConnection.getPool: return the pool, or throw a
database AppError when none is initialized (the state left behind by
close). -/
def getPool (s : DbConn) : Except AppError Pool :=
  match s.pool with
  | none => Except.error (AppError.database "Database pool not initialized" none)
  | some p => Except.ok p

/-- Embedding of DatabaseConnection.close: end the pool and clear the
reference; when the driver's end call itself throws (endErr), wrap the
failure and leave the reference untouched; closing an already absent pool
is a no-op. -/
def close (endErr : Bool) (s : DbConn) : Except AppError Unit × DbConn :=
  match s.pool with
  | none => (Except.ok (), s)
  | some _ =>
    if endErr then
      (Except.error (AppError.database "Failed to close database connection" none), s)
    else (Except.ok (), ⟨none⟩)

/-- What the driver does once the executor runs a statement on a
checked-out connection: the acquisition itself may throw, the statement
may throw with a driver message, or the statement succeeds with rows. -/
inductive DriverEvent where
  | acquireFail (msg : String)
  | queryFail (msg : String)
  | querySuccess (rows : List String)
deriving DecidableEq

/-- Embedding of QueryExecutor.execute: obtain the pool (its absence is
caught and wrapped like every other failure), check a connection out, run
the statement, wrap any thrown error as a database AppError carrying the
original message, and release the connection in the finally block on both
the success and the failure path; when no connection was ever checked out,
the finally block releases nothing. -/
def QueryExecutor.execute (s : DbConn) (ev : DriverEvent) :
    Except AppError (List String) × DbConn :=
  match s.pool with
  | none =>
    (Except.error
      (AppError.database "Query execution failed: Database pool not initialized" none), s)
  | some p =>
    match ev with
    | DriverEvent.acquireFail m =>
      (Except.error (AppError.database ("Query execution failed: " ++ m) none), s)
    | DriverEvent.queryFail m =>
      (Except.error (AppError.database ("Query execution failed: " ++ m) none),
        ⟨some (p.checkout.checkin)⟩)
    | DriverEvent.querySuccess rows =>
      (Except.ok rows, ⟨some (p.checkout.checkin)⟩)

/-! ## Transaction orchestrator (src/db/transaction.helper.ts) -/

/-- One queued statement of a declarative transaction: it either succeeds,
contributing one effect to the transaction, or throws with a driver
message. -/
inductive Stmt where
  | ok (eff : String)
  | fail (msg : String)
deriving DecidableEq

/-- A checked-out connection as the transaction helper drives it: the
effects already committed and durably visible, the effects pending inside
the open transaction, and whether the driver's commit or rollback calls
would themselves throw; released records whether the connection has been
returned to the pool. -/
structure Connection where
  committed : List String
  pending : List String
  commitErr : Option String
  rollbackErr : Option String
  released : Bool
deriving DecidableEq

/-- connection.beginTransaction: open a fresh transaction with no pending
effects. -/
def Connection.beginTx (c : Connection) : Connection :=
  { c with pending := [] }

/-- connection.commit: make every pending effect durable, unless the
driver's commit itself throws. -/
def Connection.commitTx (c : Connection) : Except String Connection :=
  match c.commitErr with
  | some m => Except.error m
  | none => Except.ok { c with committed := c.committed ++ c.pending, pending := [] }

/-- connection.rollback: discard every pending effect, unless the driver's
rollback itself throws, in which case the pending effects stay uncommitted
on the connection. -/
def Connection.rollbackTx (c : Connection) : Except String Connection :=
  match c.rollbackErr with
  | some m => Except.error m
  | none => Except.ok { c with pending := [] }

/-- connection.release: return the connection to the pool. -/
def Connection.releaseConn (c : Connection) : Connection :=
  { c with released := true }

/-- The statement loop of executeTransaction: run the queued statements in
order on the connection, stopping at the first thrown driver error and
reporting its message. -/
def execLoop : Connection → List Stmt → Connection × Option String
  | c, [] => (c, none)
  | c, Stmt.ok e :: rest => execLoop { c with pending := c.pending ++ [e] } rest
  | c, Stmt.fail m :: _ => (c, some m)

deriving instance DecidableEq for Except

/-- Outcome of one transaction run: the value returned or the AppError
thrown, the connection as the helper leaves it, and whether the catch
block had to log a rollback failure separately. -/
structure TxResult (α : Type) where
  outcome : Except AppError α
  conn : Connection
  rollbackFailureReported : Bool
deriving DecidableEq

/-- The catch block shared by both transaction modes: attempt a rollback,
log (but swallow) a rollback failure, re-throw the original error wrapped
as a database AppError, and release the connection in the finally
block. -/
def txCatch (α : Type) (c : Connection) (origMsg : String) : TxResult α :=
  match c.rollbackTx with
  | Except.ok c2 =>
    ⟨Except.error (AppError.database ("Transaction failed: " ++ origMsg) none),
      c2.releaseConn, false⟩
  | Except.error _ =>
    ⟨Except.error (AppError.database ("Transaction failed: " ++ origMsg) none),
      c.releaseConn, true⟩

/-- Embedding of TransactionHelper.executeTransaction: begin a
transaction, execute every queued statement in order collecting the
results, commit, and return the collected effects; any error thrown by a
statement or by commit goes through the catch block; the connection is
released on every path. -/
def executeTransaction (queries : List Stmt) (c0 : Connection) : TxResult (List String) :=
  let started := c0.beginTx
  match execLoop started queries with
  | (c1, some m) => txCatch (List String) c1 m
  | (c1, none) =>
    match c1.commitTx with
    | Except.ok c2 => ⟨Except.ok c1.pending, c2.releaseConn, false⟩
    | Except.error m => txCatch (List String) c1 m

/-- Embedding of TransactionHelper.withTransaction: begin a transaction,
run the caller-supplied callback on the active connection (modelled by the
effects the callback performs before returning or throwing, and its
result), commit on success, and hand any callback or commit error to the
same catch block; the connection is released on every path. -/
def withTransaction (α : Type) (cbEffects : List String) (cbResult : Except String α)
    (c0 : Connection) : TxResult α :=
  let started := c0.beginTx
  let worked : Connection := { started with pending := started.pending ++ cbEffects }
  match cbResult with
  | Except.error m => txCatch α worked m
  | Except.ok a =>
    match worked.commitTx with
    | Except.ok c2 => ⟨Except.ok a, c2.releaseConn, false⟩
    | Except.error m => txCatch α worked m

/-! ## Convenience transaction mode (TransactionHelper.simpleTransaction) -/

/-- The tag of one simple-transaction operation. -/
inductive OpType where
  | insert
  | update
  | delete
deriving DecidableEq

/-- One simple-transaction operation: a tag, a table, and the optional
data and conditions records, modelled as ordered key-value lists (a
JavaScript object preserves string-key insertion order); none models an
absent (falsy) record, while an empty list models a present-but-empty
object, which is truthy in JavaScript. -/
structure Operation where
  otype : OpType
  table : String
  data : Option (List (String × String))
  conditions : Option (List (String × String))
deriving DecidableEq

/-- Join a list of fragments with a separator, as Array.prototype.join. -/
def joinSep (sep : String) : List String → String
  | [] => ""
  | [x] => x
  | x :: xs => x ++ sep ++ joinSep sep xs

/-- Embedding of the statement builder inside simpleTransaction: reject an
insert without data, an update without data or without conditions, and a
delete without conditions, each with the source's bad-request AppError;
otherwise assemble the parameterized statement text and its positional
parameters. -/
def buildQuery (op : Operation) : Except AppError (String × List String) :=
  match op.otype with
  | OpType.insert =>
    match op.data with
    | none => Except.error (AppError.badRequest "Insert operation requires data" none)
    | some d =>
      let fields := d.map Prod.fst
      Except.ok
        ("INSERT INTO " ++ op.table ++ " (" ++ joinSep ", " fields ++ ") VALUES (" ++
          joinSep ", " (fields.map (fun _ => "?")) ++ ")",
          d.map Prod.snd)
  | OpType.update =>
    match op.data, op.conditions with
    | none, _ =>
      Except.error (AppError.badRequest "Update operation requires data and conditions" none)
    | some _, none =>
      Except.error (AppError.badRequest "Update operation requires data and conditions" none)
    | some d, some cs =>
      let setPart := joinSep ", " (d.map (fun kv => kv.1 ++ " = ?"))
      let wherePart := joinSep " AND " (cs.map (fun kv => kv.1 ++ " = ?"))
      Except.ok
        ("UPDATE " ++ op.table ++ " SET " ++ setPart ++ " WHERE " ++ wherePart,
          d.map Prod.snd ++ cs.map Prod.snd)
  | OpType.delete =>
    match op.conditions with
    | none => Except.error (AppError.badRequest "Delete operation requires conditions" none)
    | some cs =>
      let wherePart := joinSep " AND " (cs.map (fun kv => kv.1 ++ " = ?"))
      Except.ok ("DELETE FROM " ++ op.table ++ " WHERE " ++ wherePart, cs.map Prod.snd)

/-- The query-building loop of simpleTransaction: build every operation's
statement in order, throwing at the first invalid operation, before any
statement is handed to executeTransaction. -/
def buildQueries : List Operation → Except AppError (List (String × List String))
  | [] => Except.ok []
  | op :: rest =>
    match buildQuery op with
    | Except.error e => Except.error e
    | Except.ok q =>
      match buildQueries rest with
      | Except.error e => Except.error e
      | Except.ok qs => Except.ok (q :: qs)

/-! ## Concrete instances used by the witnesses -/

/-- A concrete verifier distinguishing four one-character tokens. -/
def c5Verify (tok : List Char) : VerifyOutcome :=
  if tok = ['1'] then VerifyOutcome.expired
  else if tok = ['2'] then VerifyOutcome.invalid
  else if tok = ['3'] then VerifyOutcome.other
  else VerifyOutcome.ok ⟨some "u1", none, some "a@x.com", some "admin"⟩

/-- A concrete schema set declaring three rules that the all-zero input
violates: two on the body and one on the query. -/
def val3Schema : SchemaSet Nat Nat Nat :=
  { body := some
      [⟨fun n => 0 < n, "body must be positive"⟩,
        ⟨fun n => 5 ≤ n, "body at least five"⟩]
    params := some [⟨fun _ => true, "params unconstrained"⟩]
    query := some [⟨fun n => n ≠ 0, "query must be nonzero"⟩] }

/-! ## Helper lemmas -/

/-- The bearer tag at the front of a header is recognized by the scheme
check. -/
theorem startsWith_bearer_append (t : List Char) :
    startsWithChars bearerTag (bearerTag ++ t) = true := rfl

/-- Dropping the seven tag characters from a bearer header recovers the
token. -/
theorem drop_bearer_append (t : List Char) : (bearerTag ++ t).drop 7 = t := rfl

/-- The statement loop only grows the pending effects: the committed
effects, the driver failure modes and the released flag of the connection
are untouched. -/
theorem execLoop_preserves (c : Connection) (qs : List Stmt) :
    (execLoop c qs).1.committed = c.committed ∧
    (execLoop c qs).1.commitErr = c.commitErr ∧
    (execLoop c qs).1.rollbackErr = c.rollbackErr ∧
    (execLoop c qs).1.released = c.released := by
  induction qs generalizing c with
  | nil => simp [execLoop]
  | cons q rest ih =>
    cases q with
    | ok e => simpa [execLoop] using ih { c with pending := c.pending ++ [e] }
    | fail m => simp [execLoop]

/-- The shared catch block always re-raises the original error wrapped as
the transaction-failed database error, keeps the committed effects intact,
releases the connection, and reports a rollback failure exactly when the
driver's rollback throws. -/
theorem txCatch_spec (α : Type) (c : Connection) (m : String) :
    (txCatch α c m).outcome =
      Except.error (AppError.database ("Transaction failed: " ++ m) none) ∧
    (txCatch α c m).conn.committed = c.committed ∧
    (txCatch α c m).conn.released = true ∧
    (txCatch α c m).rollbackFailureReported = c.rollbackErr.isSome := by
  unfold txCatch Connection.rollbackTx
  cases c.rollbackErr <;> simp [Connection.releaseConn]

/-- The message list produced by a schema has one entry per violated
rule. -/
theorem joiMessages_length {σ : Type} (rules : List (Rule σ)) (x : σ) :
    (joiMessages rules x).length = rules.countP (fun r => !(r.check x)) := by
  simp [joiMessages, List.countP_eq_length_filter]

/-! ## Claim theorems -/

/-- C8: authorize fails with the insufficient-permission error exactly when
the required role list is non-empty and the identity's role (defaulting to
the empty string when absent) is not among it; it succeeds exactly
otherwise, and an empty role list authorizes every authenticated
identity. -/
theorem authorize_role_gate (roles : List String) (u : Identity) :
    (authorize roles (some u) =
        Except.error (AppError.forbidden "Insufficient permissions" none) ↔
      roles ≠ [] ∧ roles.contains (u.role.getD "") = false) ∧
    (authorize roles (some u) = Except.ok () ↔
      roles = [] ∨ roles.contains (u.role.getD "") = true) ∧
    authorize [] (some u) = Except.ok () := by
  cases roles with
  | nil => simp [authorize]
  | cons r rs =>
    by_cases hc : (r :: rs).contains (u.role.getD "") = true
    · simp [authorize, hc]
      tauto
    · simp [authorize, Bool.not_eq_true] at hc ⊢
      simp [hc]

/-- C10: the standalone verifyToken helper collapses every verification
failure into the same unauthorized Invalid-token error and returns the
decoded claims on success, while authenticate maps an expired token to a
distinct error. -/
theorem verifyToken_uniform_failure (c : Claims) (t : List Char)
    (verify : List Char → VerifyOutcome)
    (hv : verify t = VerifyOutcome.expired) :
    verifyToken (VerifyOutcome.ok c) = Except.ok c ∧
    verifyToken VerifyOutcome.expired =
      Except.error (AppError.unauthorized "Invalid token" none) ∧
    verifyToken VerifyOutcome.invalid =
      Except.error (AppError.unauthorized "Invalid token" none) ∧
    verifyToken VerifyOutcome.other =
      Except.error (AppError.unauthorized "Invalid token" none) ∧
    authenticate verify (some (bearerTag ++ t)) =
      Except.error (AppError.unauthorized "Token has expired" none) ∧
    AppError.unauthorized "Token has expired" none ≠
      AppError.unauthorized "Invalid token" none := by
  refine ⟨rfl, rfl, rfl, rfl, ?_, by decide⟩
  simp [authenticate, startsWith_bearer_append, drop_bearer_append, hv]

/-- Witness for C10 at a concrete verifier that reports every token as
expired. -/
theorem verifyToken_uniform_failure_witness :
    verifyToken (VerifyOutcome.ok ⟨none, none, none, none⟩) =
      Except.ok ⟨none, none, none, none⟩ ∧
    verifyToken VerifyOutcome.expired =
      Except.error (AppError.unauthorized "Invalid token" none) ∧
    verifyToken VerifyOutcome.invalid =
      Except.error (AppError.unauthorized "Invalid token" none) ∧
    verifyToken VerifyOutcome.other =
      Except.error (AppError.unauthorized "Invalid token" none) ∧
    authenticate (fun _ => VerifyOutcome.expired) (some (bearerTag ++ ['a'])) =
      Except.error (AppError.unauthorized "Token has expired" none) ∧
    AppError.unauthorized "Token has expired" none ≠
      AppError.unauthorized "Invalid token" none :=
  verifyToken_uniform_failure ⟨none, none, none, none⟩ ['a']
    (fun _ => VerifyOutcome.expired) rfl

/-- C7 counterexample: a delete whose conditions record is present but
empty is not rejected before statement building; the builder accepts it
and produces a statement whose WHERE clause is empty. -/
theorem delete_empty_conditions_not_rejected :
    buildQueries [⟨OpType.delete, "users", none, some []⟩] =
      Except.ok [("DELETE FROM users WHERE ", [])] := by decide

/-- C7 amended: an update without data or without conditions and a delete
without conditions are rejected with the source's bad-request error before
any statement is built, but a present-and-empty conditions record passes
the check for both update and delete and yields a statement with an empty
WHERE clause. -/
theorem mutation_condition_checks (t : String) (d : List (String × String))
    (dOpt cOpt : Option (List (String × String))) :
    buildQuery ⟨OpType.update, t, none, cOpt⟩ =
      Except.error
        (AppError.badRequest "Update operation requires data and conditions" none) ∧
    buildQuery ⟨OpType.update, t, some d, none⟩ =
      Except.error
        (AppError.badRequest "Update operation requires data and conditions" none) ∧
    buildQuery ⟨OpType.delete, t, dOpt, none⟩ =
      Except.error (AppError.badRequest "Delete operation requires conditions" none) ∧
    buildQuery ⟨OpType.delete, t, dOpt, some []⟩ =
      Except.ok ("DELETE FROM " ++ t ++ " WHERE ", []) ∧
    buildQuery ⟨OpType.update, t, some d, some []⟩ =
      Except.ok
        ("UPDATE " ++ t ++ " SET " ++
            joinSep ", " (d.map (fun kv => kv.1 ++ " = ?")) ++ " WHERE ",
          d.map Prod.snd) := by
  cases dOpt <;>
    simp [buildQuery, joinSep]

/-- C5: authenticate fails with the missing-credential error when the
Authorization header is absent or does not carry the bearer scheme, with
the expired error when verification reports expiry, with an
invalid-credential error for any other verification failure, and on a
verified token attaches an identity carrying the decoded id, email and
role unchanged. -/
theorem authenticate_taxonomy (verify : List Char → VerifyOutcome)
    (h t1 t2 t3 t4 : List Char) (c : Claims) (s : String)
    (hnb : startsWithChars bearerTag h = false)
    (h1 : verify t1 = VerifyOutcome.expired)
    (h2 : verify t2 = VerifyOutcome.invalid)
    (h3 : verify t3 = VerifyOutcome.other)
    (h4 : verify t4 = VerifyOutcome.ok c)
    (hid : c.id = some s) (hs : s ≠ "") :
    authenticate verify none =
      Except.error (AppError.unauthorized "Access token is required" none) ∧
    authenticate verify (some h) =
      Except.error (AppError.unauthorized "Access token is required" none) ∧
    authenticate verify (some (bearerTag ++ t1)) =
      Except.error (AppError.unauthorized "Token has expired" none) ∧
    authenticate verify (some (bearerTag ++ t2)) =
      Except.error (AppError.unauthorized "Invalid token" none) ∧
    authenticate verify (some (bearerTag ++ t3)) =
      Except.error (AppError.unauthorized "Token verification failed" none) ∧
    authenticate verify (some (bearerTag ++ t4)) =
      Except.ok ⟨some s, c.email, c.role⟩ := by
  refine ⟨rfl, ?_, ?_, ?_, ?_, ?_⟩
  · simp [authenticate, hnb]
  · simp [authenticate, startsWith_bearer_append, drop_bearer_append, h1]
  · simp [authenticate, startsWith_bearer_append, drop_bearer_append, h2]
  · simp [authenticate, startsWith_bearer_append, drop_bearer_append, h3]
  · simp [authenticate, startsWith_bearer_append, drop_bearer_append, h4, jsOr, hid, hs]

/-- Witness for C5 at a concrete verifier distinguishing four tokens. -/
theorem authenticate_taxonomy_witness :
    authenticate c5Verify none =
      Except.error (AppError.unauthorized "Access token is required" none) ∧
    authenticate c5Verify (some ['x']) =
      Except.error (AppError.unauthorized "Access token is required" none) ∧
    authenticate c5Verify (some (bearerTag ++ ['1'])) =
      Except.error (AppError.unauthorized "Token has expired" none) ∧
    authenticate c5Verify (some (bearerTag ++ ['2'])) =
      Except.error (AppError.unauthorized "Invalid token" none) ∧
    authenticate c5Verify (some (bearerTag ++ ['3'])) =
      Except.error (AppError.unauthorized "Token verification failed" none) ∧
    authenticate c5Verify (some (bearerTag ++ ['4'])) =
      Except.ok ⟨some "u1", some "a@x.com", some "admin"⟩ :=
  authenticate_taxonomy c5Verify ['x'] ['1'] ['2'] ['3'] ['4']
    ⟨some "u1", none, some "a@x.com", some "admin"⟩ "u1"
    (by decide) (by decide) (by decide) (by decide) (by decide) rfl (by decide)

/-- C4: validate succeeds exactly when no declared rule is violated;
otherwise it fails with one validation error whose context carries every
violation message, and the number of messages equals the number of
violated rules across body, params and query. -/
theorem validate_reports_every_violation {β π κ : Type} (s : SchemaSet β π κ)
    (b : β) (p : π) (q : κ) :
    (validate s b p q = Except.ok () ↔ violationMessages s b p q = []) ∧
    (violationMessages s b p q ≠ [] →
      validate s b p q =
        Except.error
          (AppError.validation "Validation failed" (some (violationMessages s b p q)))) ∧
    (violationMessages s b p q).length = violationCount s b p q := by
  refine ⟨?_, ?_, ?_⟩
  · by_cases hm : violationMessages s b p q = [] <;>
      simp [validate, hm, List.length_eq_zero]
  · intro hm
    have hl : 0 < (violationMessages s b p q).length := by
      cases hML : violationMessages s b p q with
      | nil => exact absurd hML hm
      | cons x xs => simp [hML]
    simp [validate, hl]
  · cases s with
    | mk sb sp sq =>
      cases sb <;> cases sp <;> cases sq <;>
        simp [violationMessages, violationCount, sourceMessages, joiMessages_length,
          Nat.add_assoc]

/-- Witness for C4: an input violating exactly three independent rules
yields one validation error carrying exactly those three messages. -/
theorem validate_reports_every_violation_witness :
    validate val3Schema 0 0 0 =
      Except.error
        (AppError.validation "Validation failed"
          (some ["body must be positive", "body at least five", "query must be nonzero"])) ∧
    (violationMessages val3Schema 0 0 0).length = violationCount val3Schema 0 0 0 := by
  have h := validate_reports_every_violation val3Schema 0 0 0
  have hm : violationMessages val3Schema 0 0 0 =
      ["body must be positive", "body at least five", "query must be nonzero"] := by decide
  refine ⟨?_, h.2.2⟩
  have he := h.2.1 (by rw [hm]; intro hc; cases hc)
  rw [hm] at he
  exact he

/-- C3 counterexample: in a build that is neither development nor
production, a driver-coded error outside the duplicate-key case keeps its
raw message, so the message is not redacted even though the build is not a
development build. -/
theorem driver_message_kept_in_test_build :
    "test" ≠ "development" ∧
    (globalErrorHandler ⟨none, "Error", "secret driver detail", some "ER_PARSE_ERROR"⟩
          "test" "trace" "/users" "GET").message = "secret driver detail" := by
  refine ⟨by decide, by decide⟩

/-- C3 amended: the global error handler is total and classifies by
priority: an application error keeps its own kind, status and message; a
driver duplicate-key code maps to the duplicate kind with status 409; any
other driver code of the ER family maps to the database kind with status
500, its message replaced by a generic one exactly in production builds
and passed through verbatim otherwise; the credential error names map to
the authentication kind with status 401; anything unrecognized maps to the
internal kind with status 500 and a generic message. -/
theorem globalErrorHandler_classification (a : AppError)
    (env msg stk pth mth nm c : String)
    (hnm : nm ∉ (["ValidationError", "CastError", "JsonWebTokenError",
      "TokenExpiredError"] : List String))
    (hc1 : c ≠ "") (hc2 : strStartsWith "ER_" c = true) (hc3 : c ≠ "ER_DUP_ENTRY") :
    classification (globalErrorHandler ⟨some a, nm, msg, some c⟩ env stk pth mth) =
      (a.etype, a.statusCode, a.message) ∧
    classification (globalErrorHandler ⟨none, nm, msg, some "ER_DUP_ENTRY"⟩ env stk pth mth) =
      (ErrorType.duplicateError, 409, "Duplicate entry found") ∧
    classification (globalErrorHandler ⟨none, nm, msg, some c⟩ env stk pth mth) =
      (ErrorType.databaseError, 500,
        if env = "production" then "Database error occurred" else msg) ∧
    classification (globalErrorHandler ⟨none, "JsonWebTokenError", msg, none⟩ env stk pth mth) =
      (ErrorType.authenticationError, 401, "Invalid token") ∧
    classification (globalErrorHandler ⟨none, "TokenExpiredError", msg, none⟩ env stk pth mth) =
      (ErrorType.authenticationError, 401, "Token expired") ∧
    classification (globalErrorHandler ⟨none, nm, msg, none⟩ env stk pth mth) =
      (ErrorType.internalServerError, 500, "Something went wrong!") := by
  simp only [List.mem_cons, List.not_mem_nil, or_false, not_or] at hnm
  obtain ⟨hn1, hn2, hn3, hn4⟩ := hnm
  refine ⟨?_, ?_, ?_, ?_, ?_, ?_⟩ <;>
    simp [globalErrorHandler, classification, hn1, hn2, hn3, hn4, hc1, hc2, hc3]

/-- Witness for C3 at a not-found application error, a parse-error driver
code and a test build. -/
theorem globalErrorHandler_classification_witness :
    classification (globalErrorHandler
        ⟨some (AppError.notFound "User not found" none), "Error", "boom",
          some "ER_PARSE_ERROR"⟩ "test" "trace" "/users" "GET") =
      (ErrorType.notFoundError, 404, "User not found") ∧
    classification (globalErrorHandler ⟨none, "Error", "boom", some "ER_DUP_ENTRY"⟩
        "test" "trace" "/users" "GET") =
      (ErrorType.duplicateError, 409, "Duplicate entry found") ∧
    classification (globalErrorHandler ⟨none, "Error", "boom", some "ER_PARSE_ERROR"⟩
        "test" "trace" "/users" "GET") =
      (ErrorType.databaseError, 500,
        if "test" = "production" then "Database error occurred" else "boom") ∧
    classification (globalErrorHandler ⟨none, "JsonWebTokenError", "boom", none⟩
        "test" "trace" "/users" "GET") =
      (ErrorType.authenticationError, 401, "Invalid token") ∧
    classification (globalErrorHandler ⟨none, "TokenExpiredError", "boom", none⟩
        "test" "trace" "/users" "GET") =
      (ErrorType.authenticationError, 401, "Token expired") ∧
    classification (globalErrorHandler ⟨none, "Error", "boom", none⟩
        "test" "trace" "/users" "GET") =
      (ErrorType.internalServerError, 500, "Something went wrong!") :=
  globalErrorHandler_classification (AppError.notFound "User not found" none)
    "test" "boom" "trace" "/users" "GET" "Error" "ER_PARSE_ERROR"
    (by decide) (by decide) (by decide) (by decide)

/-- C2: the executor checks every checked-out connection back in on every
exit path, so the pool's idle count returns to its pre-call baseline
whether the statement succeeds, the statement throws, or the acquisition
itself fails; both transaction modes likewise release their connection on
every path. -/
theorem no_connection_leak (s : DbConn) (p : Pool) (ev : DriverEvent)
    (hp : s.pool = some p) (hidle : 0 < p.idle)
    (queries : List Stmt) (c0 : Connection) (α : Type)
    (effs : List String) (res : Except String α) (c1 : Connection) :
    (QueryExecutor.execute s ev).2.poolIdle = s.poolIdle ∧
    (executeTransaction queries c0).conn.released = true ∧
    (withTransaction α effs res c1).conn.released = true := by
  refine ⟨?_, ?_, ?_⟩
  · cases ev <;>
      simp [QueryExecutor.execute, hp, DbConn.poolIdle, Pool.checkout, Pool.checkin] <;>
      omega
  · simp only [executeTransaction]
    split
    · exact (txCatch_spec _ _ _).2.2.1
    · split
      · simp [Connection.releaseConn]
      · exact (txCatch_spec _ _ _).2.2.1
  · simp only [withTransaction]
    split
    · exact (txCatch_spec _ _ _).2.2.1
    · split
      · simp [Connection.releaseConn]
      · exact (txCatch_spec _ _ _).2.2.1

/-- Witness for C2 at a pool of three idle connections and a failing
statement. -/
theorem no_connection_leak_witness :
    (QueryExecutor.execute ⟨some ⟨3⟩⟩ (DriverEvent.queryFail "boom")).2.poolIdle =
      DbConn.poolIdle ⟨some ⟨3⟩⟩ ∧
    (executeTransaction [Stmt.fail "boom"] ⟨[], [], none, none, false⟩).conn.released = true ∧
    (withTransaction Unit ["e1"] (Except.error "boom")
        ⟨[], [], none, none, false⟩).conn.released = true :=
  no_connection_leak ⟨some ⟨3⟩⟩ ⟨3⟩ (DriverEvent.queryFail "boom") rfl (by decide)
    [Stmt.fail "boom"] ⟨[], [], none, none, false⟩ Unit ["e1"] (Except.error "boom")
    ⟨[], [], none, none, false⟩

/-- C9: once close has completed successfully the pool reference is gone,
the pool accessor fails with the pool-not-initialized database error, and
every query execution, whatever the driver would have done, fails with
that error wrapped, so no checkout can succeed after shutdown. -/
theorem checkout_after_close_fails (s : DbConn) (ef : Bool)
    (hok : (close ef s).1 = Except.ok ()) :
    (close ef s).2.pool = none ∧
    getPool (close ef s).2 =
      Except.error (AppError.database "Database pool not initialized" none) ∧
    ∀ ev, (QueryExecutor.execute (close ef s).2 ev).1 =
      Except.error
        (AppError.database "Query execution failed: Database pool not initialized" none) := by
  rcases s with ⟨po⟩
  cases po with
  | none =>
    refine ⟨rfl, rfl, ?_⟩
    intro ev
    rfl
  | some p =>
    cases ef with
    | true => simp [close] at hok
    | false =>
      refine ⟨rfl, rfl, ?_⟩
      intro ev
      rfl

/-- Witness for C9 at a live pool of three idle connections closed without
a driver failure, with a concrete execution attempted afterwards. -/
theorem checkout_after_close_fails_witness :
    (close false ⟨some ⟨3⟩⟩).2.pool = none ∧
    getPool (close false ⟨some ⟨3⟩⟩).2 =
      Except.error (AppError.database "Database pool not initialized" none) ∧
    (QueryExecutor.execute (close false ⟨some ⟨3⟩⟩).2 (DriverEvent.querySuccess ["row"])).1 =
      Except.error
        (AppError.database "Query execution failed: Database pool not initialized" none) :=
  ⟨(checkout_after_close_fails ⟨some ⟨3⟩⟩ false rfl).1,
    (checkout_after_close_fails ⟨some ⟨3⟩⟩ false rfl).2.1,
    (checkout_after_close_fails ⟨some ⟨3⟩⟩ false rfl).2.2 (DriverEvent.querySuccess ["row"])⟩

/-- C1: when any statement of a declarative transaction or the callback of
a callback-mode transaction raises, the helper issues a rollback so the
committed effects are exactly the pre-transaction ones, re-raises the
original error wrapped as the transaction-failed database error, releases
the connection, and when the rollback itself throws it reports that
failure separately while the original error still propagates unchanged. -/
theorem transaction_rollback_on_error (queries : List Stmt) (c0 : Connection)
    (m : String) (hrun : (execLoop c0.beginTx queries).2 = some m)
    (α : Type) (effs : List String) (m2 : String) (c1 : Connection) :
    ((executeTransaction queries c0).outcome =
        Except.error (AppError.database ("Transaction failed: " ++ m) none) ∧
      (executeTransaction queries c0).conn.committed = c0.committed ∧
      (executeTransaction queries c0).conn.released = true ∧
      (executeTransaction queries c0).rollbackFailureReported = c0.rollbackErr.isSome) ∧
    ((withTransaction α effs (Except.error m2) c1).outcome =
        Except.error (AppError.database ("Transaction failed: " ++ m2) none) ∧
      (withTransaction α effs (Except.error m2) c1).conn.committed = c1.committed ∧
      (withTransaction α effs (Except.error m2) c1).conn.released = true ∧
      (withTransaction α effs (Except.error m2) c1).rollbackFailureReported =
        c1.rollbackErr.isSome) := by
  constructor
  · have hpre := execLoop_preserves c0.beginTx queries
    simp only [executeTransaction]
    split
    next cF mf heq =>
      rw [heq] at hrun hpre
      simp only [Option.some.injEq] at hrun
      subst hrun
      have hcom : cF.committed = c0.committed := by
        simpa [Connection.beginTx] using hpre.1
      have hrb : cF.rollbackErr = c0.rollbackErr := by
        simpa [Connection.beginTx] using hpre.2.2.1
      have hs := txCatch_spec (List String) cF mf
      exact ⟨hs.1, by rw [hs.2.1, hcom], hs.2.2.1, by rw [hs.2.2.2, hrb]⟩
    next cF heq =>
      rw [heq] at hrun
      simp at hrun
  · have hw : withTransaction α effs (Except.error m2) c1 =
        txCatch α { c1.beginTx with pending := c1.beginTx.pending ++ effs } m2 := rfl
    have hs := txCatch_spec α { c1.beginTx with pending := c1.beginTx.pending ++ effs } m2
    rw [hw]
    exact ⟨hs.1, by rw [hs.2.1]; rfl, hs.2.2.1, by rw [hs.2.2.2]; rfl⟩

/-- Witness for C1: a transaction whose second statement fails on a
connection holding one committed effect and whose rollback also throws,
and a callback-mode transaction failing on a clean connection. -/
theorem transaction_rollback_on_error_witness :
    ((executeTransaction [Stmt.ok "e1", Stmt.fail "boom"]
          ⟨["old"], [], none, some "rbfail", false⟩).outcome =
        Except.error (AppError.database ("Transaction failed: " ++ "boom") none) ∧
      (executeTransaction [Stmt.ok "e1", Stmt.fail "boom"]
          ⟨["old"], [], none, some "rbfail", false⟩).conn.committed = ["old"] ∧
      (executeTransaction [Stmt.ok "e1", Stmt.fail "boom"]
          ⟨["old"], [], none, some "rbfail", false⟩).conn.released = true ∧
      (executeTransaction [Stmt.ok "e1", Stmt.fail "boom"]
          ⟨["old"], [], none, some "rbfail", false⟩).rollbackFailureReported =
        (some "rbfail" : Option String).isSome) ∧
    ((withTransaction Unit ["e2"] (Except.error "cbfail")
          ⟨[], [], none, none, false⟩).outcome =
        Except.error (AppError.database ("Transaction failed: " ++ "cbfail") none) ∧
      (withTransaction Unit ["e2"] (Except.error "cbfail")
          ⟨[], [], none, none, false⟩).conn.committed = [] ∧
      (withTransaction Unit ["e2"] (Except.error "cbfail")
          ⟨[], [], none, none, false⟩).conn.released = true ∧
      (withTransaction Unit ["e2"] (Except.error "cbfail")
          ⟨[], [], none, none, false⟩).rollbackFailureReported =
        (none : Option String).isSome) :=
  transaction_rollback_on_error [Stmt.ok "e1", Stmt.fail "boom"]
    ⟨["old"], [], none, some "rbfail", false⟩ "boom" (by decide)
    Unit ["e2"] "cbfail" ⟨[], [], none, none, false⟩

end NodeFW
